import Mathlib

/-!
# Verification of the DSSAT rice control-file writer (src/dssat/rice.py)

Shallow embedding of the `Model` class of `src/dssat/rice.py`.  Each
section-writer method of the class is modelled as a pure function returning
the list of strings it writes to the output stream (one element per
`fout.write(...)` call).  Python `datetime.date` values are modelled by
`PyDate` (year/month/day), and Python floats by `PyFloat`, an exact
numerator/denominator pair: the program never performs arithmetic on the
float values it receives, it only formats them, so an exact rational
representation is faithful and keeps every definition evaluable by kernel
reduction.  Database queries (the cultivar lookup) are modelled by passing
the result rows of the two SQL queries as explicit lists.  Code delegated
to the superclass (`sampleSoilProfiles`, `interpolateSoilMoist`) is passed
in as explicit data/function parameters.
-/

/-! ## Decimal digit strings

`decDigitsAux` computes the decimal digit characters of a natural number
with an explicit fuel bound (fuel is always taken as `n + 1`, which is more
than the number of digits, so the bound is never hit).
-/

def decDigitsAux : Nat → Nat → List Char
  | 0, _ => []
  | fuel + 1, n =>
    if n < 10 then [Nat.digitChar n]
    else decDigitsAux fuel (n / 10) ++ [Nat.digitChar (n % 10)]

/-- Decimal digit characters of a natural number (what Python `"%d"` prints). -/
def decDigits (n : Nat) : List Char := decDigitsAux (n + 1) n

/-- Zero padding to width `w`, as in Python format specifiers `{0:03d}` /
`strftime %j`. -/
def padZeros (w n : Nat) : List Char :=
  List.replicate (w - (decDigits n).length) '0' ++ decDigits n

/-- String form of `padZeros 3`, used for the `{0:03d}` format fields. -/
def pad3s (n : Nat) : String := String.mk (padZeros 3 n)

/-- String form of `padZeros 2`, used for the `{0:02d}` format fields. -/
def pad2s (n : Nat) : String := String.mk (padZeros 2 n)

/-! ## Dates -/

/-- Python `datetime.date`: a year/month/day triple. -/
structure PyDate where
  year : Nat
  month : Nat
  day : Nat
deriving DecidableEq

/-- Gregorian leap-year rule (as used by the Python `datetime` library). -/
def isLeap (y : Nat) : Bool :=
  (y % 4 == 0 && y % 100 != 0) || y % 400 == 0

/-- Lengths of the twelve months. -/
def monthDays (leap : Bool) : List Nat :=
  [31, if leap then 29 else 28, 31, 30, 31, 30, 31, 31, 30, 31, 30, 31]

/-- Number of days of month `m` of year `y` (0 for an out-of-range month). -/
def daysInMonth (y m : Nat) : Nat := (monthDays (isLeap y)).getD (m - 1) 0

/-- Days in the months strictly before month `m`. -/
def cumDays (leap : Bool) (m : Nat) : Nat := (((monthDays leap).take (m - 1)).sum)

/-- Day of the year (1-based), what `strftime("%j")` prints. -/
def dayOfYear (d : PyDate) : Nat := cumDays (isLeap d.year) d.month + d.day

/-- The date is a real calendar date. -/
def validDate (d : PyDate) : Prop :=
  1 ≤ d.month ∧ d.month ≤ 12 ∧ 1 ≤ d.day ∧ d.day ≤ daysInMonth d.year d.month

instance (d : PyDate) : Decidable (validDate d) := by
  unfold validDate; infer_instance

/-- Python `date.replace(year)`: keeps month and day, raises `ValueError`
(modelled as `none`) when the resulting date does not exist (Feb 29 moved
to a non-leap year). -/
def replaceYear (d : PyDate) (y : Nat) : Option PyDate :=
  if validDate ⟨y, d.month, d.day⟩ then some ⟨y, d.month, d.day⟩ else none

/-- The day before `d` (for `timedelta` subtraction). -/
def prevDay (d : PyDate) : PyDate :=
  if 1 < d.day then ⟨d.year, d.month, d.day - 1⟩
  else if 1 < d.month then ⟨d.year, d.month - 1, daysInMonth d.year (d.month - 1)⟩
  else ⟨d.year - 1, 12, 31⟩

/-- The day after `d` (for `timedelta` addition). -/
def nextDay (d : PyDate) : PyDate :=
  if d.day < daysInMonth d.year d.month then ⟨d.year, d.month, d.day + 1⟩
  else if d.month < 12 then ⟨d.year, d.month + 1, 1⟩
  else ⟨d.year + 1, 1, 1⟩

/-- `d - timedelta(k)`. -/
def subDays (d : PyDate) : Nat → PyDate
  | 0 => d
  | k + 1 => prevDay (subDays d k)

/-- `d + timedelta(k)`. -/
def addDays (d : PyDate) : Nat → PyDate
  | 0 => d
  | k + 1 => nextDay (addDays d k)

/-- Characters printed by `strftime("%Y%j")`: the decimal year followed by
the three-digit zero-padded day of the year. -/
def fmtYjChars (d : PyDate) : List Char :=
  decDigits d.year ++ padZeros 3 (dayOfYear d)

/-- String form of `strftime("%Y%j")`. -/
def fmtYj (d : PyDate) : String := String.mk (fmtYjChars d)

/-! ## Python float values and fixed-point formatting -/

/-- A Python float, modelled as an exact rational `num / den`.  The module
only ever formats these values (format specifiers such as `{0:8.3f}`), it
never computes with them, so an exact rational is a faithful model; the
numerator/denominator representation keeps formatting kernel-evaluable. -/
structure PyFloat where
  num : Int
  den : Nat
deriving DecidableEq

/-- Round `num / den` to the nearest integer, ties to even (the rounding
used by the fixed-point float formatting of Python). -/
def roundHalfEvenInt (num : Int) (den : Nat) : Int :=
  let fl := Int.fdiv num den
  let r := num - fl * den
  if 2 * r < (den : Int) then fl
  else if (den : Int) < 2 * r then fl + 1
  else if fl % 2 = 0 then fl else fl + 1

/-- Python format specifier `{0:w.pf}`: fixed-point with `prec` decimals,
right-justified with spaces to width `width`.  With `prec = 0` no decimal
point is printed (e.g. `{0:8.0f}` of `15` is `"      15"`). -/
def fmtFixed (width prec : Nat) (q : PyFloat) : String :=
  let n := roundHalfEvenInt (q.num * (10 : Int) ^ prec) q.den
  let m := n.natAbs
  let body :=
    if prec = 0 then String.mk (decDigits m)
    else String.mk (decDigits (m / 10 ^ prec)) ++ "." ++ String.mk (padZeros prec (m % 10 ^ prec))
  let s := (if n < 0 then "-" else "") ++ body
  String.mk (List.replicate (width - s.length) ' ') ++ s

example : fmtFixed 8 0 ⟨15, 1⟩ = "      15" := by decide
example : fmtFixed 8 3 ⟨25, 100⟩ = "   0.250" := by decide
example : fmtFixed 8 1 ⟨5, 10⟩ = "     0.5" := by decide
example : fmtFixed 4 1 ⟨0, 1⟩ = " 0.0" := by decide
example : fmtYj ⟨2009, 1, 1⟩ = "2009001" := by decide
example : fmtYj ⟨2008, 12, 29⟩ = "2008364" := by decide
example : subDays ⟨2009, 1, 1⟩ 3 = ⟨2008, 12, 29⟩ := by decide
example : pad3s 7 = "007" := by decide

/-! ## String splitting helpers (Python `str.split`)

Modelled on character lists so that everything evaluates by kernel
reduction (`String.splitOn` from core does not).
-/

/-- Python `s.split("\n")`. -/
def splitOnNl : List Char → List (List Char)
  | [] => [[]]
  | '\n' :: rest => [] :: splitOnNl rest
  | c :: rest =>
    match splitOnNl rest with
    | [] => [[c]]
    | h :: t => (c :: h) :: t

/-- Python `s.split("\r\n")`. -/
def splitCRLF : List Char → List (List Char)
  | [] => [[]]
  | '\r' :: '\n' :: rest => [] :: splitCRLF rest
  | c :: rest =>
    match splitCRLF rest with
    | [] => [[c]]
    | h :: t => (c :: h) :: t

/-- Python `s.split(".")` (used when parsing decimal literals). -/
def splitOnDot : List Char → List (List Char)
  | [] => [[]]
  | '.' :: rest => [] :: splitOnDot rest
  | c :: rest =>
    match splitOnDot rest with
    | [] => [[c]]
    | h :: t => (c :: h) :: t

/-- Whitespace tokenisation: Python `s.split()` with no argument. -/
def pySplitWsAux : List Char → List Char → List (List Char)
  | [], acc => if acc = [] then [] else [acc.reverse]
  | c :: rest, acc =>
    if c.isWhitespace then
      if acc = [] then pySplitWsAux rest [] else acc.reverse :: pySplitWsAux rest []
    else pySplitWsAux rest (c :: acc)

/-- Python `s.split()`: whitespace-separated tokens, empties dropped. -/
def pySplitWs (l : List Char) : List (List Char) := pySplitWsAux l []

/-- Natural number denoted by a digit string. -/
def natOfDigits (l : List Char) : Nat :=
  l.foldl (fun a c => 10 * a + (c.toNat - 48)) 0

/-- Python `float(s)` on a plain decimal literal such as `"15"` or
`"15.5"` (the only shapes the soil-profile depth tokens take). -/
def parseDecimal (t : List Char) : PyFloat :=
  match splitOnDot t with
  | [a] => ⟨natOfDigits a, 1⟩
  | [a, b] => ⟨natOfDigits a * 10 ^ b.length + natOfDigits b, 10 ^ b.length⟩
  | _ => ⟨0, 1⟩

/-! ## Schedule entries -/

/-- One irrigation schedule entry: a `(date, amount)` pair. -/
structure IrrigEntry where
  dt : PyDate
  amount : PyFloat
deriving DecidableEq

/-- One fertilizer schedule entry: a `(date, amount, percent)` triple
(integer amounts, as in the `{2:02d}` / `{3:02d}` format fields). -/
structure FertEntry where
  dt : PyDate
  amount : Nat
  percent : Nat
deriving DecidableEq

/-! ## Section writers

Each `def` returns the list of strings the corresponding `_write...`
method passes to `fout.write`, in order.
-/

/-- `_writeFileNames(fout, ens)`. -/
def writeFileNames (ens : Nat) : List String :=
  ["*MODEL INPUT FILE            B     1     1     5   999     0\r\n",
   "*FILES\r\n",
   "MODEL          RICER040\r\n",
   "FILEX          IRMZ8601.RIX\r\n",
   "FILEA          IRMZ8601.RIA\r\n",
   "FILET          IRMZ8601.RIT\r\n",
   "SPECIES        RICER040.SPE\r\n",
   "ECOTYPE        RICER040.ECO\r\n",
   "CULTIVAR       RICER040.CUL\r\n",
   "PESTS          RICER040.PST\r\n",
   "SOILS          SOIL.SOL\r\n",
   "WEATHER        WEATH" ++ pad3s (ens + 1) ++ ".WTH\r\n",
   "OUTPUT         OVERVIEW\r\n"]

/-- `_writeSimulationControl(fout, startdate)`. -/
def writeSimulationControl (startdate : PyDate) : List String :=
  ["*SIMULATION CONTROL\r\n",
   "                   1     1     S " ++ fmtYj startdate ++ "  2150 IRRI MUNOZ JAN 86 UREASE  RICER\r\n",
   "                   Y     Y     N     N     N     N     N     N\r\n",
   "                   M     M     E     R     S     C     R     1     G\r\n",
   "                   R     R     R     R     M\r\n",
   "                   N     Y     Y     1     Y     N     Y     Y     N     N     Y     N     N\r\n"]

/-- `_writeAutomaticMgmt(fout, startdate)`; `t0 = startdate - timedelta(3)`,
`t1 = t0 + timedelta(14)`. -/
def writeAutomaticMgmt (startdate : PyDate) : List String :=
  ["!AUTOMATIC MANAGEM\r\n",
   "               " ++ fmtYj (subDays startdate 3) ++ " " ++ fmtYj (addDays (subDays startdate 3) 14) ++ "   40.  100.   30.   40.   10.\r\n",
   "                 30.   50.  100. IB001 IB001  10.0 1.000\r\n",
   "                 30.   50.   25. IB001 IB001\r\n",
   "                100.     1   20.\r\n",
   "                     0 1986036  100.    0.\r\n"]

/-- `_writeExpDetails(fout)`. -/
def writeExpDetails : List String :=
  ["*EXP.DETAILS\r\n",
   "  1IRMZ8601 RI IRRI,MUNOZ JAN 86 UREASE INHIBITORS\r\n"]

/-- `_writeTreatments(fout)`. -/
def writeTreatments : List String :=
  ["*TREATMENTS\r\n",
   "  5 1 0 0 140 kg N as urea(2/3 18 D\r\n"]

/-- `_writeCultivars(fout)`. -/
def writeCultivarsSection : List String :=
  ["*CULTIVARS\r\n",
   "   RI IB0012 IR 58\r\n"]

/-- `_writeFields(fout, lat, lon)`: the two data lines are fixed literals;
the `lat` and `lon` arguments are accepted but never used. -/
def writeFields (lat lon : PyFloat) : List String :=
  ["*FIELDS\r\n",
   "   IRMZ0001 IRMZ8601   0.0    0. IB000    0.  100. 00000         50. IBRI910002\r\n",
   "           0.00000         0.00000      0.00               1.0  100.   1.0   0.0\r\n"]

/-- `_writeInitialConditions(fout, startdate, dz, smi)`: one line per soil
layer, `smi[0, lyr]` being row 0 of the interpolated moisture array. -/
def writeInitialConditions (startdate : PyDate) (dz : List PyFloat)
    (smi : List (List PyFloat)) : List String :=
  ["*INITIAL CONDITIONS\r\n",
   "   RI    " ++ fmtYj startdate ++ "  600.    0.  1.00  1.00   0.0   800  1.10  0.00  100.   15.\r\n"] ++
  (List.range dz.length).map (fun lyr =>
    fmtFixed 8 0 (dz.getD lyr ⟨0, 1⟩) ++ fmtFixed 8 3 ((smi.getD 0 []).getD lyr ⟨0, 1⟩) ++
      fmtFixed 8 1 ⟨5, 10⟩ ++ fmtFixed 8 1 ⟨1, 10⟩ ++ "\r\n")

/-- `_writePlanting(fout, pdt)`. -/
def writePlanting (pdt : PyDate) : List String :=
  ["*PLANTING DETAILS\r\n",
   "   " ++ fmtYj pdt ++ "     -99  75.0  25.0     T     H   20.    0.   2.0    0.   23.  26.0   3.0   0.0\r\n"]

/-- One data line of the irrigation section; `i` is the 1-based record
index from `enumerate` (`IR{1:03d}` with `i+1`). -/
def irrigLine (i : Nat) (e : IrrigEntry) : String :=
  "   " ++ fmtYj e.dt ++ " IR" ++ pad3s i ++ " " ++ fmtFixed 4 1 e.amount ++ "\r\n"

/-- The irrigation data lines, numbering from `i0`. -/
def irrigLines (i0 : Nat) : List IrrigEntry → List String
  | [] => []
  | e :: rest => irrigLine i0 e :: irrigLines (i0 + 1) rest

/-- `_writeIrrigation(fout, irrigation)`. -/
def writeIrrigation (irrigation : List IrrigEntry) : List String :=
  ["*IRRIGATION\r\n",
   "   1.000   30.   75.  -99. GS000 IR001   1.0\r\n"] ++ irrigLines 1 irrigation

/-- One data line of the fertilizer section; `i` is the 1-based record
index from `enumerate` (`FE{1:03d} AP{1:03d}` with `f+1`). -/
def fertLine (i : Nat) (f : FertEntry) : String :=
  "   " ++ fmtYj f.dt ++ " FE" ++ pad3s i ++ " AP" ++ pad3s i ++ "   " ++ pad2s f.amount ++
    ".   " ++ pad2s f.percent ++ ".    0.    0.    0.    0.   -99\r\n"

/-- The fertilizer data lines, numbering from `i0`. -/
def fertLines (i0 : Nat) : List FertEntry → List String
  | [] => []
  | f :: rest => fertLine i0 f :: fertLines (i0 + 1) rest

/-- `_writeFertilizer(fout, fertilizers)`. -/
def writeFertilizer (fertilizers : List FertEntry) : List String :=
  ["*FERTILIZERS\r\n"] ++ fertLines 1 fertilizers

/-- `_writeResidues(fout)`. -/
def writeResidues : List String := ["*RESIDUES\r\n"]

/-- `_writeChemicals(fout)`. -/
def writeChemicals : List String := ["*CHEMICALS\r\n"]

/-- `_writeTillage(fout)`. -/
def writeTillage : List String := ["*TILLAGE\r\n"]

/-- `_writeEnvironment(fout)`. -/
def writeEnvironment : List String := ["*ENVIRONMENT\r\n"]

/-- `_writeHarvest(fout)`. -/
def writeHarvest : List String := ["*HARVEST\r\n"]

/-- `_writeSoil(fout, prof, dz)`. -/
def writeSoil (prof : List String) (dz : List PyFloat) : List String :=
  ["*SOIL\r\n"] ++ prof.dropLast.map (fun ln => ln ++ "\r\n") ++ ["\r\n"] ++
  dz.map (fun z =>
    fmtFixed 6 0 z ++ "   0.0   0.0   0.0   0.0   0.0   0.0   0.0   0.0   0.0   0.0   0.0   0.0   0.0   0.0   0.0\r\n")

/-- `_writeCultivar(fout, cultivar)`: the header line, then the cultivar
genetics string written verbatim (the source appends no line terminator to
it). -/
def writeCultivarSection (cultivar : String) : List String :=
  ["*CULTIVAR\r\n", cultivar]


/-! ## Cultivar resolution (`Model.cultivar`)

The two SQL queries are modelled by their result rows: `inter` is the
result of the spatial-intersection query, `fall` the result of the
fallback query ordered by centroid distance ascending (so its first row is
the nearest-centroid cultivar).  `cur.fetchone()` is `head?`; unpacking a
`None` row raises, modelled as `none`.
-/

/-- One row of the cultivar query: eight genetic coefficients and the
cultivar name. -/
structure CultRec where
  p1 : PyFloat
  p2r : PyFloat
  p5 : PyFloat
  p2o : PyFloat
  g1 : PyFloat
  g2 : PyFloat
  g3 : PyFloat
  g4 : PyFloat
  name : String
deriving DecidableEq

/-- The row `fetchone()` yields in `Model.cultivar`: the first row of the
intersection query, or — when that query had zero rows — the first row of
the centroid-distance-ordered fallback query. -/
def cultivarFetch (inter fall : List CultRec) : Option CultRec :=
  if inter.length ≠ 0 then inter.head? else fall.head?

/-- The cultivar genetics line built by `Model.cultivar` (note: no trailing
line terminator in the source). -/
def cultivarLine (r : CultRec) : String :=
  "IB0012 IR 58            IB0001" ++ fmtFixed 6 1 r.p1 ++ fmtFixed 6 1 r.p2r ++
    fmtFixed 6 1 r.p5 ++ fmtFixed 6 1 r.p2o ++ fmtFixed 6 1 r.g1 ++ fmtFixed 6 4 r.g2 ++
    fmtFixed 6 2 r.g3 ++ fmtFixed 6 2 r.g4

/-- `Model.cultivar(ens, gid)`: returns the formatted genetics line and the
updated `self.cultivars[gid]` list (the fetched name is appended).  When
both queries return zero rows, unpacking the `None` from `fetchone()` raises an
unhandled `TypeError`, modelled as `none`: no line is produced and no name
is appended. -/
def cultivar (inter fall : List CultRec) (names : List String) :
    Option (String × List String) :=
  match cultivarFetch inter fall with
  | none => none
  | some r => some (cultivarLine r, names ++ [r.name])

/-! ## The control-file assembler (`Model.writeControlFile`) -/

/-- Python list repetition `l * k`. -/
def pyListRepeat (l : List α) (k : Nat) : List α := List.flatten (List.replicate k l)

/-- The soil-moisture expansion at the top of `writeControlFile`: a list is
cycled (`(vsm * (int(nens/len(vsm)) + 1))[:nens]`, a `ZeroDivisionError` —
modelled as `none` — when the list is empty), a single value is replicated
(`[vsm] * nens`). -/
def expandVsm (vsm : PyFloat ⊕ List PyFloat) (nens : Nat) : Option (List PyFloat) :=
  match vsm with
  | Sum.inr l =>
    if l.length = 0 then none
    else some ((pyListRepeat l (nens / l.length + 1)).take nens)
  | Sum.inl v => some (pyListRepeat [v] nens)

/-- The fertilizer defaulting inside the ensemble loop:
`[(startdate, 30, 20)] if fertilizers is None else fertilizers`. -/
def effFertilizers (fertilizers : Option (List FertEntry)) (startdate : PyDate) :
    List FertEntry :=
  match fertilizers with
  | none => [⟨startdate, 30, 20⟩]
  | some l => l

/-- The irrigation defaulting inside the ensemble loop:
`[(startdate, 0.0)] if irrigation is None else irrigation`. -/
def effIrrigation (irrigation : Option (List IrrigEntry)) (startdate : PyDate) :
    List IrrigEntry :=
  match irrigation with
  | none => [⟨startdate, ⟨0, 1⟩⟩]
  | some l => l

/-- The per-ensemble depth layering:
`map(lambda ln: float(ln.split()[0]), profiles[ens].split("\n")[3:-1])`. -/
def dzFromProfile (p : String) : List PyFloat :=
  (((splitOnNl p.data).drop 3).dropLast).map
    (fun ln => parseDecimal ((pySplitWs ln).getD 0 []))

/-- All strings written to the per-ensemble control file
`DSSAT{nens}_{ens+1:03d}.INP`, in the order of the `with open` block of
`writeControlFile` (`startdate` and `planting` are the already
year-normalized dates; `prof`, `dz`, `smi` and `cultivarStr` are the
per-ensemble values computed in the loop body). -/
def controlFileWrites (ens : Nat) (startdate planting : PyDate)
    (irrigation : List IrrigEntry) (fertilizers : List FertEntry)
    (prof : List String) (dz : List PyFloat) (smi : List (List PyFloat))
    (cultivarStr : String) (lat lon : PyFloat) : List String :=
  writeFileNames ens ++
  writeSimulationControl startdate ++
  writeAutomaticMgmt startdate ++
  writeExpDetails ++
  writeTreatments ++
  writeCultivarsSection ++
  writeFields lat lon ++
  writeInitialConditions startdate dz smi ++
  writePlanting planting ++
  writeIrrigation irrigation ++
  writeFertilizer fertilizers ++
  writeResidues ++
  writeChemicals ++
  writeTillage ++
  writeEnvironment ++
  writeHarvest ++
  writeSoil prof dz ++
  writeCultivarSection cultivarStr

/-- The value returned by `Model.writeControlFile`: the `dz, smi` pair left
over from the last iteration of the ensemble loop (`none` when the loop
never ran or the soil-moisture expansion raised).
`interpolateSoilMoist` lives in the superclass (not part of this file) and
is passed in as a function parameter; the emitted file contents are
modelled separately by `controlFileWrites`. -/
def writeControlFile (nens : Nat) (vsm : PyFloat ⊕ List PyFloat)
    (depths : List PyFloat) (profiles : List String)
    (interpolateSoilMoist : PyFloat → List PyFloat → List PyFloat → List (List PyFloat)) :
    Option (List PyFloat × List (List PyFloat)) :=
  match expandVsm vsm nens with
  | none => none
  | some vsml =>
    (List.range nens).foldl
      (fun _ ens =>
        some (dzFromProfile (profiles.getD ens ""),
          interpolateSoilMoist (vsml.getD ens ⟨0, 1⟩) depths
            (dzFromProfile (profiles.getD ens ""))))
      none

/-! ## Line-termination predicate -/

/-- The string ends with a carriage-return/line-feed pair. -/
def endsCRLFb (s : String) : Bool :=
  s.data.reverse.take 2 == ['\n', '\r']

example : endsCRLFb "*FIELDS\r\n" = true := by decide
example : endsCRLFb "IB0012 IR 58" = false := by decide
example : dzFromProfile "a\nb\nc\n15.5 x\n30 y\nz" = [⟨155, 10⟩, ⟨30, 1⟩] := by decide
example : expandVsm (Sum.inr [⟨1, 1⟩, ⟨2, 1⟩]) 5 =
    some [⟨1, 1⟩, ⟨2, 1⟩, ⟨1, 1⟩, ⟨2, 1⟩, ⟨1, 1⟩] := by decide
example : cultivarFetch [] [⟨⟨1,1⟩,⟨1,1⟩,⟨1,1⟩,⟨1,1⟩,⟨1,1⟩,⟨1,1⟩,⟨1,1⟩,⟨1,1⟩,"a"⟩] =
    some ⟨⟨1,1⟩,⟨1,1⟩,⟨1,1⟩,⟨1,1⟩,⟨1,1⟩,⟨1,1⟩,⟨1,1⟩,⟨1,1⟩,"a"⟩ := by decide

/-! ## Helper lemmas -/

theorem decDigitsAux_base (fuel n : Nat) (hn : n < 10) (hf : fuel ≠ 0) :
    decDigitsAux fuel n = [Nat.digitChar n] := by
  cases fuel with
  | zero => exact absurd rfl hf
  | succ f => simp [decDigitsAux, hn]

theorem decDigitsAux_step (fuel n : Nat) (hn : 10 ≤ n) (hf : fuel ≠ 0) :
    decDigitsAux fuel n = decDigitsAux (fuel - 1) (n / 10) ++ [Nat.digitChar (n % 10)] := by
  cases fuel with
  | zero => exact absurd rfl hf
  | succ f => simp [decDigitsAux, Nat.not_lt.mpr hn]

/-- A four-digit year prints as exactly four characters. -/
theorem decDigits_length_four (y : Nat) (h1 : 1000 ≤ y) (h2 : y < 10000) :
    (decDigits y).length = 4 := by
  unfold decDigits
  rw [decDigitsAux_step (y + 1) y (by omega) (by omega)]
  rw [decDigitsAux_step (y + 1 - 1) (y / 10) (by omega) (by omega)]
  rw [decDigitsAux_step (y + 1 - 1 - 1) (y / 10 / 10) (by omega) (by omega)]
  rw [decDigitsAux_base (y + 1 - 1 - 1 - 1) (y / 10 / 10 / 10) (by omega) (by omega)]
  simp

theorem decDigits_length_le_three (n : Nat) (h : n < 1000) :
    (decDigits n).length ≤ 3 := by
  unfold decDigits
  by_cases h1 : n < 10
  · rw [decDigitsAux_base (n + 1) n h1 (by omega)]; simp
  · by_cases h2 : n < 100
    · rw [decDigitsAux_step (n + 1) n (by omega) (by omega)]
      rw [decDigitsAux_base (n + 1 - 1) (n / 10) (by omega) (by omega)]
      simp
    · rw [decDigitsAux_step (n + 1) n (by omega) (by omega)]
      rw [decDigitsAux_step (n + 1 - 1) (n / 10) (by omega) (by omega)]
      rw [decDigitsAux_base (n + 1 - 1 - 1) (n / 10 / 10) (by omega) (by omega)]
      simp

theorem digitChar_isDigit : ∀ k, k < 10 → (Nat.digitChar k).isDigit = true := by decide

theorem decDigitsAux_digits (fuel : Nat) :
    ∀ n c, c ∈ decDigitsAux fuel n → c.isDigit = true := by
  induction fuel with
  | zero => simp [decDigitsAux]
  | succ f ih =>
    intro n c hc
    simp only [decDigitsAux] at hc
    split at hc
    · simp only [List.mem_singleton] at hc
      subst hc
      exact digitChar_isDigit n (by omega)
    · rcases List.mem_append.mp hc with h | h
      · exact ih _ _ h
      · simp only [List.mem_singleton] at h
        subst h
        exact digitChar_isDigit _ (Nat.mod_lt _ (by omega))

theorem decDigits_digits (n : Nat) : ∀ c ∈ decDigits n, c.isDigit = true :=
  fun c hc => decDigitsAux_digits (n + 1) n c hc

theorem padZeros_length_three (n : Nat) (h : n < 1000) : (padZeros 3 n).length = 3 := by
  unfold padZeros
  have := decDigits_length_le_three n h
  simp [List.length_append]
  omega

theorem padZeros_digits (w n : Nat) : ∀ c ∈ padZeros w n, c.isDigit = true := by
  intro c hc
  rcases List.mem_append.mp hc with h | h
  · rw [List.eq_of_mem_replicate h]; decide
  · exact decDigits_digits n c h

/-! ### Date lemmas -/

theorem replaceYear_some (d sd : PyDate) (y : Nat) (h : replaceYear d y = some sd) :
    sd.year = y ∧ validDate sd ∧ sd.month = d.month ∧ sd.day = d.day := by
  unfold replaceYear at h
  split at h
  · cases h
    exact ⟨rfl, by assumption, rfl, rfl⟩
  · cases h

theorem cumDays_le : ∀ (b : Bool), ∀ m, m < 13 → cumDays b m ≤ 335 := by decide

theorem monthDays_getD_le : ∀ (b : Bool), ∀ m, m < 13 → (monthDays b).getD (m - 1) 0 ≤ 31 := by
  decide

theorem dayOfYear_bounds (d : PyDate) (h : validDate d) :
    1 ≤ dayOfYear d ∧ dayOfYear d ≤ 366 := by
  obtain ⟨h1, h2, h3, h4⟩ := h
  have hc := cumDays_le (isLeap d.year) d.month (by omega)
  have hm : daysInMonth d.year d.month ≤ 31 :=
    monthDays_getD_le (isLeap d.year) d.month (by omega)
  unfold dayOfYear
  omega

/-! ### CRLF lemmas -/

theorem endsCRLFb_append (s t : String) (h : endsCRLFb t = true) :
    endsCRLFb (s ++ t) = true := by
  unfold endsCRLFb at h ⊢
  simp only [beq_iff_eq] at h ⊢
  have hd : (s ++ t).data = s.data ++ t.data := rfl
  rw [hd, List.reverse_append]
  obtain ⟨rest, hrest⟩ : ∃ rest, t.data.reverse = '\n' :: '\r' :: rest := by
    cases hr : t.data.reverse with
    | nil => rw [hr] at h; simp at h
    | cons a tl =>
      cases tl with
      | nil => rw [hr] at h; simp at h
      | cons b r =>
        rw [hr] at h
        simp only [List.take] at h
        cases h
        exact ⟨r, rfl⟩
  rw [hrest]
  simp

/-! ### List lemmas -/

theorem foldl_last {β : Type} (f : β → Nat → β) (g : Nat → β)
    (hfg : ∀ a i, f a i = g i) (a : β) (n : Nat) (h : n ≠ 0) :
    (List.range n).foldl f a = g (n - 1) := by
  cases n with
  | zero => exact absurd rfl h
  | succ m =>
    rw [List.range_succ, List.foldl_append]
    simp [hfg]

theorem pyListRepeat_length (l : List α) (k : Nat) :
    (pyListRepeat l k).length = k * l.length := by
  induction k with
  | zero => simp [pyListRepeat]
  | succ k ih =>
    unfold pyListRepeat at ih ⊢
    rw [List.replicate_succ, List.flatten_cons, List.length_append, ih, Nat.succ_mul]
    omega

theorem pyListRepeat_getElem (l : List α) (k i : Nat) (h : i < k * l.length) :
    (pyListRepeat l k)[i]? = l[i % l.length]? := by
  induction k generalizing i with
  | zero => omega
  | succ k ih =>
    unfold pyListRepeat at ih ⊢
    rw [List.replicate_succ, List.flatten_cons]
    rw [List.getElem?_append]
    by_cases hi : i < l.length
    · rw [if_pos hi, Nat.mod_eq_of_lt hi]
    · rw [if_neg hi]
      have hl : l.length ≤ i := by omega
      have h2 : i - l.length < k * l.length := by
        have hs : (k + 1) * l.length = k * l.length + l.length := by ring
        omega
      rw [ih _ h2]
      have hmod : (i - l.length) % l.length = i % l.length := by
        conv_rhs => rw [show i = (i - l.length) + l.length by omega]
        rw [Nat.add_mod_right]
      rw [hmod]

theorem pyListRepeat_singleton (v : α) (n : Nat) :
    pyListRepeat [v] n = List.replicate n v := by
  induction n with
  | zero => simp [pyListRepeat]
  | succ n ih =>
    unfold pyListRepeat at ih ⊢
    rw [List.replicate_succ, List.flatten_cons, ih, List.replicate_succ]
    rfl

theorem irrigLines_length (L : List IrrigEntry) : ∀ i0, (irrigLines i0 L).length = L.length := by
  induction L with
  | nil => intro i0; rfl
  | cons e rest ih => intro i0; simp [irrigLines, ih]

theorem irrigLines_getElem (L : List IrrigEntry) :
    ∀ i0 i, (h : i < L.length) → (irrigLines i0 L)[i]? = some (irrigLine (i0 + i) L[i]) := by
  induction L with
  | nil => intro i0 i h; simp at h
  | cons e rest ih =>
    intro i0 i h
    cases i with
    | zero => simp [irrigLines]
    | succ j =>
      have hj : j < rest.length := by simpa using h
      simp only [irrigLines, List.getElem?_cons_succ]
      rw [ih (i0 + 1) j hj]
      have : i0 + 1 + j = i0 + (j + 1) := by omega
      rw [this]
      simp

theorem fertLines_length (L : List FertEntry) : ∀ i0, (fertLines i0 L).length = L.length := by
  induction L with
  | nil => intro i0; rfl
  | cons e rest ih => intro i0; simp [fertLines, ih]

theorem fertLines_getElem (L : List FertEntry) :
    ∀ i0 i, (h : i < L.length) → (fertLines i0 L)[i]? = some (fertLine (i0 + i) L[i]) := by
  induction L with
  | nil => intro i0 i h; simp at h
  | cons e rest ih =>
    intro i0 i h
    cases i with
    | zero => simp [fertLines]
    | succ j =>
      have hj : j < rest.length := by simpa using h
      simp only [fertLines, List.getElem?_cons_succ]
      rw [ih (i0 + 1) j hj]
      have : i0 + 1 + j = i0 + (j + 1) := by omega
      rw [this]
      simp

/-! ### Every write carries a CRLF terminator, section by section (the
cultivar genetics payload is the one exception, handled separately). -/

theorem allCRLF_writeFileNames (ens : Nat) : ∀ s ∈ writeFileNames ens, endsCRLFb s = true := by
  intro s hs
  simp only [writeFileNames, List.mem_cons, List.not_mem_nil, or_false] at hs
  rcases hs with rfl | rfl | rfl | rfl | rfl | rfl | rfl | rfl | rfl | rfl | rfl | rfl | rfl
  all_goals (repeat apply endsCRLFb_append)
  all_goals decide

theorem allCRLF_writeSimulationControl (sd : PyDate) :
    ∀ s ∈ writeSimulationControl sd, endsCRLFb s = true := by
  intro s hs
  simp only [writeSimulationControl, List.mem_cons, List.not_mem_nil, or_false] at hs
  rcases hs with rfl | rfl | rfl | rfl | rfl | rfl
  all_goals (repeat apply endsCRLFb_append)
  all_goals decide

theorem allCRLF_writeAutomaticMgmt (sd : PyDate) :
    ∀ s ∈ writeAutomaticMgmt sd, endsCRLFb s = true := by
  intro s hs
  simp only [writeAutomaticMgmt, List.mem_cons, List.not_mem_nil, or_false] at hs
  rcases hs with rfl | rfl | rfl | rfl | rfl | rfl
  all_goals (repeat apply endsCRLFb_append)
  all_goals decide

theorem allCRLF_writeExpDetails : ∀ s ∈ writeExpDetails, endsCRLFb s = true := by decide

theorem allCRLF_writeTreatments : ∀ s ∈ writeTreatments, endsCRLFb s = true := by decide

theorem allCRLF_writeCultivarsSection : ∀ s ∈ writeCultivarsSection, endsCRLFb s = true := by
  decide

theorem allCRLF_writeFields (lat lon : PyFloat) :
    ∀ s ∈ writeFields lat lon, endsCRLFb s = true := by
  intro s hs
  simp only [writeFields, List.mem_cons, List.not_mem_nil, or_false] at hs
  rcases hs with rfl | rfl | rfl
  all_goals decide

theorem allCRLF_writeInitialConditions (sd : PyDate) (dz : List PyFloat)
    (smi : List (List PyFloat)) :
    ∀ s ∈ writeInitialConditions sd dz smi, endsCRLFb s = true := by
  intro s hs
  simp only [writeInitialConditions, List.mem_append, List.mem_cons, List.not_mem_nil,
    or_false, List.mem_map, List.mem_range] at hs
  rcases hs with (rfl | rfl) | ⟨lyr, _, rfl⟩
  all_goals (repeat apply endsCRLFb_append)
  all_goals decide

theorem allCRLF_writePlanting (pd : PyDate) : ∀ s ∈ writePlanting pd, endsCRLFb s = true := by
  intro s hs
  simp only [writePlanting, List.mem_cons, List.not_mem_nil, or_false] at hs
  rcases hs with rfl | rfl
  all_goals (repeat apply endsCRLFb_append)
  all_goals decide

theorem allCRLF_irrigLines (L : List IrrigEntry) :
    ∀ i0, ∀ s ∈ irrigLines i0 L, endsCRLFb s = true := by
  induction L with
  | nil => intro i0 s hs; simp [irrigLines] at hs
  | cons e rest ih =>
    intro i0 s hs
    rcases List.mem_cons.mp hs with rfl | h
    · unfold irrigLine
      repeat apply endsCRLFb_append
      decide
    · exact ih (i0 + 1) s h

theorem allCRLF_writeIrrigation (L : List IrrigEntry) :
    ∀ s ∈ writeIrrigation L, endsCRLFb s = true := by
  intro s hs
  simp only [writeIrrigation, List.mem_append, List.mem_cons, List.not_mem_nil, or_false] at hs
  rcases hs with (rfl | rfl) | h
  · decide
  · decide
  · exact allCRLF_irrigLines L 1 s h

theorem allCRLF_fertLines (L : List FertEntry) :
    ∀ i0, ∀ s ∈ fertLines i0 L, endsCRLFb s = true := by
  induction L with
  | nil => intro i0 s hs; simp [fertLines] at hs
  | cons f rest ih =>
    intro i0 s hs
    rcases List.mem_cons.mp hs with rfl | h
    · unfold fertLine
      repeat apply endsCRLFb_append
      decide
    · exact ih (i0 + 1) s h

theorem allCRLF_writeFertilizer (L : List FertEntry) :
    ∀ s ∈ writeFertilizer L, endsCRLFb s = true := by
  intro s hs
  simp only [writeFertilizer, List.mem_append, List.mem_cons, List.not_mem_nil, or_false] at hs
  rcases hs with rfl | h
  · decide
  · exact allCRLF_fertLines L 1 s h

theorem allCRLF_writeSoil (prof : List String) (dz : List PyFloat) :
    ∀ s ∈ writeSoil prof dz, endsCRLFb s = true := by
  intro s hs
  simp only [writeSoil, List.mem_append, List.mem_cons, List.not_mem_nil, or_false,
    List.mem_map] at hs
  rcases hs with ((rfl | ⟨ln, _, rfl⟩) | rfl) | ⟨z, _, rfl⟩
  all_goals (repeat apply endsCRLFb_append)
  all_goals decide

theorem allCRLF_writeResidues : ∀ s ∈ writeResidues, endsCRLFb s = true := by decide

theorem allCRLF_writeChemicals : ∀ s ∈ writeChemicals, endsCRLFb s = true := by decide

theorem allCRLF_writeTillage : ∀ s ∈ writeTillage, endsCRLFb s = true := by decide

theorem allCRLF_writeEnvironment : ∀ s ∈ writeEnvironment, endsCRLFb s = true := by decide

theorem allCRLF_writeHarvest : ∀ s ∈ writeHarvest, endsCRLFb s = true := by decide

/-- The `%Y%j` field of a date is four year digits followed by three
zero-padded day-of-year digits, all decimal digits. -/
def yjOk (d : PyDate) : Prop :=
  fmtYjChars d = decDigits d.year ++ padZeros 3 (dayOfYear d) ∧
  (decDigits d.year).length = 4 ∧
  (padZeros 3 (dayOfYear d)).length = 3 ∧
  ∀ c ∈ fmtYjChars d, c.isDigit = true

theorem yjOk_of (d : PyDate) (h1 : 1000 ≤ d.year) (h2 : d.year ≤ 9999)
    (hv : validDate d) : yjOk d := by
  have hdoy := dayOfYear_bounds d hv
  refine ⟨rfl, decDigits_length_four _ h1 (by omega), padZeros_length_three _ (by omega), ?_⟩
  intro c hc
  rcases List.mem_append.mp hc with h | h
  · exact decDigits_digits _ c h
  · exact padZeros_digits _ _ c h

/-- A concrete cultivar record used by closed witness/counterexample
statements. -/
def demoRec : CultRec :=
  ⟨⟨451, 10⟩, ⟨120, 1⟩, ⟨550, 10⟩, ⟨12, 1⟩, ⟨65, 1⟩, ⟨283, 10000⟩, ⟨1, 1⟩, ⟨1, 1⟩, "IR64"⟩

/-! ## The claims -/

/-- Claim C10: the output of the fields section writer is completely independent of
its latitude and longitude arguments — for any two coordinate pairs the
emitted strings are identical (the coordinates are accepted but never
used). -/
theorem C10_writeFields_coord_independent (lat lon lat2 lon2 : PyFloat) :
    writeFields lat lon = writeFields lat2 lon2 := rfl

/-- Claim C8: when both the spatial-intersection query and the nearest-centroid
fallback query return zero rows, `cultivar` does not handle the condition:
`fetchone()` yields `None` and unpacking it raises (modelled as `none`), so
no genetics line is produced and no cultivar name is appended to the
per-region list. -/
theorem C8_cultivar_empty_queries (names : List String) :
    cultivar [] [] names = none ∧ cultivarFetch [] [] = none := ⟨rfl, rfl⟩

/-- Claim C5: with depth layers `[15, 30, 60]` and interpolated moisture
`[0.25, 0.30, 0.28]`, the initial-conditions section is the two header
lines followed by exactly three data lines in layer order, the depth as a
width-8 zero-decimal field and the moisture as a width-8 three-decimal
field. -/
theorem C5_initial_conditions_layers :
    writeInitialConditions ⟨2009, 1, 1⟩ [⟨15, 1⟩, ⟨30, 1⟩, ⟨60, 1⟩]
        [[⟨25, 100⟩, ⟨30, 100⟩, ⟨28, 100⟩]] =
      ["*INITIAL CONDITIONS\r\n",
       "   RI    2009001  600.    0.  1.00  1.00   0.0   800  1.10  0.00  100.   15.\r\n",
       "      15   0.250     0.5     0.1\r\n",
       "      30   0.300     0.5     0.1\r\n",
       "      60   0.280     0.5     0.1\r\n"] := by decide

/-- Claim C3: cultivar resolution takes the first row of the intersection query when
that query returned rows; when it returned zero rows it takes the first
row of the centroid-distance-ordered fallback query (the nearest-centroid
record); in either case at most one record is produced (`fetchone`). -/
theorem C3_cultivar_resolution (inter fall inter2 fall2 : List CultRec) (r0 : CultRec)
    (h1 : inter = []) (h2 : fall.head? = some r0) (h3 : inter2 ≠ []) :
    cultivarFetch inter fall = some r0 ∧
    (cultivarFetch inter fall).toList.length = 1 ∧
    cultivarFetch inter2 fall2 = inter2.head? ∧
    (cultivarFetch inter2 fall2).toList.length ≤ 1 := by
  subst h1
  have hfetch : cultivarFetch [] fall = fall.head? := by simp [cultivarFetch]
  have hlen2 : inter2.length ≠ 0 := by
    simpa [List.length_eq_zero] using h3
  have hfetch2 : cultivarFetch inter2 fall2 = inter2.head? := by
    simp [cultivarFetch, hlen2]
  refine ⟨hfetch.trans h2, ?_, hfetch2, ?_⟩
  · rw [hfetch.trans h2]; rfl
  · rw [hfetch2]
    cases inter2 with
    | nil => simp
    | cons a l => simp

theorem C3_cultivar_resolution_witness :
    cultivarFetch [] [demoRec] = some demoRec ∧
    (cultivarFetch [] [demoRec]).toList.length = 1 ∧
    cultivarFetch [demoRec] [] = [demoRec].head? ∧
    (cultivarFetch [demoRec] []).toList.length ≤ 1 :=
  C3_cultivar_resolution [] [demoRec] [demoRec] [] demoRec rfl rfl (by decide)

/-- Claim C6: the emitted irrigation and fertilizer lines appear in exactly the
input order (data line `i` of the section comes from input entry `i`), and
the record codes embedded in each line (`IRnnn`, `FEnnn`/`APnnn`) count up
from 1 with the first input entry numbered 1 (`irrigLine`/`fertLine` embed
`pad3s` of the 1-based index). -/
theorem C6_schedule_order_and_indexing (irr : List IrrigEntry) (fert : List FertEntry)
    (i j : Nat) (hi : i < irr.length) (hj : j < fert.length) :
    (writeIrrigation irr).length = 2 + irr.length ∧
    (writeFertilizer fert).length = 1 + fert.length ∧
    (writeIrrigation irr)[i + 2]? = some (irrigLine (i + 1) irr[i]) ∧
    (writeFertilizer fert)[j + 1]? = some (fertLine (j + 1) fert[j]) := by
  have h1 : writeIrrigation irr =
      "*IRRIGATION\r\n" :: "   1.000   30.   75.  -99. GS000 IR001   1.0\r\n" ::
        irrigLines 1 irr := rfl
  have h2 : writeFertilizer fert = "*FERTILIZERS\r\n" :: fertLines 1 fert := rfl
  refine ⟨?_, ?_, ?_, ?_⟩
  · rw [h1]; simp [irrigLines_length]; omega
  · rw [h2]; simp [fertLines_length]; omega
  · rw [h1]
    simp only [List.getElem?_cons_succ]
    rw [irrigLines_getElem irr 1 i hi, Nat.add_comm 1 i]
  · rw [h2]
    simp only [List.getElem?_cons_succ]
    rw [fertLines_getElem fert 1 j hj, Nat.add_comm 1 j]

theorem C6_schedule_order_and_indexing_witness :
    (writeIrrigation [⟨⟨2009, 1, 1⟩, ⟨0, 1⟩⟩, ⟨⟨2009, 2, 1⟩, ⟨35, 10⟩⟩]).length = 2 + 2 ∧
    (writeFertilizer [⟨⟨2009, 1, 1⟩, 30, 20⟩]).length = 1 + 1 ∧
    (writeIrrigation [⟨⟨2009, 1, 1⟩, ⟨0, 1⟩⟩, ⟨⟨2009, 2, 1⟩, ⟨35, 10⟩⟩])[1 + 2]? =
      some (irrigLine (1 + 1) ([⟨⟨2009, 1, 1⟩, ⟨0, 1⟩⟩, ⟨⟨2009, 2, 1⟩, ⟨35, 10⟩⟩])[1]) ∧
    (writeFertilizer [⟨⟨2009, 1, 1⟩, 30, 20⟩])[0 + 1]? =
      some (fertLine (0 + 1) ([⟨⟨2009, 1, 1⟩, 30, 20⟩])[0]) :=
  C6_schedule_order_and_indexing
    [⟨⟨2009, 1, 1⟩, ⟨0, 1⟩⟩, ⟨⟨2009, 2, 1⟩, ⟨35, 10⟩⟩] [⟨⟨2009, 1, 1⟩, 30, 20⟩]
    1 0 (by decide) (by decide)

/-- Claim C4, counterexample: the claim quantifies over every list shorter than
`nens`, and the empty list is shorter than `nens = 3`; on it the code
divides by `len(vsm) = 0` and raises `ZeroDivisionError` (modelled as
`none`), so no list of `nens` values is produced. -/
theorem C4_cex_empty_list : expandVsm (Sum.inr []) 3 = none := rfl

/-- Claim C4 (amended): a single non-list soil-moisture value is replicated into
a list of length `nens`; a NONEMPTY list is cycled periodically and
truncated so that exactly `nens` members receive a value (member `i` gets
entry `i mod len`); an empty list instead raises `ZeroDivisionError`. -/
theorem C4_vsm_expansion (v : PyFloat) (l : List PyFloat) (nens i : Nat)
    (hne : l ≠ []) (hi : i < nens) :
    expandVsm (Sum.inl v) nens = some (List.replicate nens v) ∧
    ∃ out, expandVsm (Sum.inr l) nens = some out ∧ out.length = nens ∧
      out[i]? = l[i % l.length]? := by
  have hlen : l.length ≠ 0 := by simpa [List.length_eq_zero] using hne
  have hcov : nens ≤ (nens / l.length + 1) * l.length := by
    have hd := Nat.div_add_mod nens l.length
    have h2 : (nens / l.length + 1) * l.length =
        nens / l.length * l.length + l.length := by ring
    have h3 : nens % l.length < l.length := Nat.mod_lt _ (by omega)
    have h4 : l.length * (nens / l.length) = nens / l.length * l.length :=
      Nat.mul_comm _ _
    omega
  constructor
  · simp [expandVsm, pyListRepeat_singleton]
  · refine ⟨(pyListRepeat l (nens / l.length + 1)).take nens, ?_, ?_, ?_⟩
    · simp [expandVsm, hlen]
    · rw [List.length_take, pyListRepeat_length]
      omega
    · rw [List.getElem?_take_of_lt hi]
      exact pyListRepeat_getElem l _ i (by omega)

theorem C4_vsm_expansion_witness :
    expandVsm (Sum.inl ⟨1, 4⟩) 3 = some (List.replicate 3 ⟨1, 4⟩) ∧
    ∃ out, expandVsm (Sum.inr [⟨1, 4⟩, ⟨3, 10⟩]) 3 = some out ∧ out.length = 3 ∧
      out[2]? = [(⟨1, 4⟩ : PyFloat), ⟨3, 10⟩][2 % ([(⟨1, 4⟩ : PyFloat), ⟨3, 10⟩]).length]? :=
  C4_vsm_expansion ⟨1, 4⟩ [⟨1, 4⟩, ⟨3, 10⟩] 3 2 (by decide) (by decide)

/-- Claim C1, counterexample: called with an EMPTY fertilizer list (not `None`),
the `is None` test fails, the empty list is kept, and the fertilizer
section consists of the header alone — no default entry is emitted. -/
theorem C1_cex_empty_fertilizer_list :
    writeFertilizer (effFertilizers (some []) ⟨2009, 1, 1⟩) = ["*FERTILIZERS\r\n"] ∧
    (writeFertilizer (effFertilizers (some []) ⟨2009, 1, 1⟩)).length = 1 ∧
    fertLine 1 ⟨⟨2009, 1, 1⟩, 30, 20⟩ ∉
      writeFertilizer (effFertilizers (some []) ⟨2009, 1, 1⟩) := by decide

/-- Claim C1 (amended): when `writeControlFile` is called with fertilizer input
ABSENT (`None`), the fertilizer section of every ensemble member carries exactly
one default entry dated at the year-normalized simulation start date with
amount 30 and nitrogen percent 20, and that line is part of the emitted
control file. -/
theorem C1_default_fertilizer (startdate sd pd : PyDate) (ens : Nat)
    (irr : List IrrigEntry) (prof : List String) (dz : List PyFloat)
    (smi : List (List PyFloat)) (cult : String) (lat lon : PyFloat)
    (h : replaceYear startdate 2009 = some sd) :
    effFertilizers none sd = [⟨sd, 30, 20⟩] ∧
    writeFertilizer (effFertilizers none sd) =
      ["*FERTILIZERS\r\n", fertLine 1 ⟨sd, 30, 20⟩] ∧
    sd.year = 2009 ∧ sd.month = startdate.month ∧ sd.day = startdate.day ∧
    fertLine 1 ⟨sd, 30, 20⟩ ∈
      controlFileWrites ens sd pd irr (effFertilizers none sd) prof dz smi cult lat lon := by
  obtain ⟨hy, hv, hm, hd⟩ := replaceYear_some _ _ _ h
  refine ⟨rfl, rfl, hy, hm, hd, ?_⟩
  simp [controlFileWrites, writeFertilizer, effFertilizers, fertLines, List.mem_append]

theorem C1_default_fertilizer_witness :
    effFertilizers none ⟨2009, 4, 10⟩ = [⟨⟨2009, 4, 10⟩, 30, 20⟩] ∧
    writeFertilizer (effFertilizers none ⟨2009, 4, 10⟩) =
      ["*FERTILIZERS\r\n", fertLine 1 ⟨⟨2009, 4, 10⟩, 30, 20⟩] ∧
    (⟨2009, 4, 10⟩ : PyDate).year = 2009 ∧
    (⟨2009, 4, 10⟩ : PyDate).month = (⟨1999, 4, 10⟩ : PyDate).month ∧
    (⟨2009, 4, 10⟩ : PyDate).day = (⟨1999, 4, 10⟩ : PyDate).day ∧
    fertLine 1 ⟨⟨2009, 4, 10⟩, 30, 20⟩ ∈
      controlFileWrites 0 ⟨2009, 4, 10⟩ ⟨2009, 4, 10⟩ [] (effFertilizers none ⟨2009, 4, 10⟩)
        [] [] [] "" ⟨0, 1⟩ ⟨0, 1⟩ :=
  C1_default_fertilizer ⟨1999, 4, 10⟩ ⟨2009, 4, 10⟩ ⟨2009, 4, 10⟩ 0 [] [] [] [] "" ⟨0, 1⟩ ⟨0, 1⟩
    (by decide)

/-- Claim C2, counterexample: an irrigation entry dated in 1999 is emitted with
its own year — the schedule dates are NOT rewritten to 2009 (only
`startdate` and `planting` pass through `replace(2009)`). -/
theorem C2_cex_irrigation_year_not_forced :
    (writeIrrigation (effIrrigation (some [⟨⟨1999, 1, 5⟩, ⟨0, 1⟩⟩]) ⟨2009, 1, 1⟩))[2]? =
      some "   1999005 IR001  0.0\r\n" ∧
    (fmtYjChars ⟨1999, 1, 5⟩).take 4 = ['1', '9', '9', '9'] ∧
    ['1', '9', '9', '9'] ≠ ['2', '0', '0', '9'] := by decide

/-- Claim C2 (amended): the simulation start and planting dates are forced to
the fixed reference year 2009 (`replace(2009)`), and every `%Y%j` field
built from a valid date with a four-digit year is exactly four year digits
followed by three zero-padded day digits; the dates of user-supplied
irrigation and fertilizer schedules are passed through unchanged, keeping
their input year. -/
theorem C2_day_of_year_fields (startdate planting sd pd : PyDate)
    (irr : List IrrigEntry) (fert : List FertEntry) (e : IrrigEntry) (f : FertEntry)
    (hsd : replaceYear startdate 2009 = some sd)
    (hpd : replaceYear planting 2009 = some pd)
    (he : e ∈ irr) (hey : 1000 ≤ e.dt.year ∧ e.dt.year ≤ 9999 ∧ validDate e.dt)
    (hf : f ∈ fert) (hfy : 1000 ≤ f.dt.year ∧ f.dt.year ≤ 9999 ∧ validDate f.dt) :
    sd.year = 2009 ∧ pd.year = 2009 ∧ yjOk sd ∧ yjOk pd ∧
    effIrrigation (some irr) sd = irr ∧ effFertilizers (some fert) sd = fert ∧
    yjOk e.dt ∧ yjOk f.dt := by
  obtain ⟨hy1, hv1, _, _⟩ := replaceYear_some _ _ _ hsd
  obtain ⟨hy2, hv2, _, _⟩ := replaceYear_some _ _ _ hpd
  exact ⟨hy1, hy2, yjOk_of _ (by omega) (by omega) hv1,
    yjOk_of _ (by omega) (by omega) hv2, rfl, rfl,
    yjOk_of _ hey.1 hey.2.1 hey.2.2, yjOk_of _ hfy.1 hfy.2.1 hfy.2.2⟩

theorem C2_day_of_year_fields_witness :
    (⟨2009, 2, 28⟩ : PyDate).year = 2009 ∧ (⟨2009, 7, 1⟩ : PyDate).year = 2009 ∧
    yjOk ⟨2009, 2, 28⟩ ∧ yjOk ⟨2009, 7, 1⟩ ∧
    effIrrigation (some [⟨⟨1999, 1, 5⟩, ⟨0, 1⟩⟩]) ⟨2009, 2, 28⟩ = [⟨⟨1999, 1, 5⟩, ⟨0, 1⟩⟩] ∧
    effFertilizers (some [⟨⟨1987, 7, 1⟩, 30, 20⟩]) ⟨2009, 2, 28⟩ = [⟨⟨1987, 7, 1⟩, 30, 20⟩] ∧
    yjOk (⟨⟨1999, 1, 5⟩, ⟨0, 1⟩⟩ : IrrigEntry).dt ∧
    yjOk (⟨⟨1987, 7, 1⟩, 30, 20⟩ : FertEntry).dt :=
  C2_day_of_year_fields ⟨1984, 2, 28⟩ ⟨1984, 7, 1⟩ ⟨2009, 2, 28⟩ ⟨2009, 7, 1⟩
    [⟨⟨1999, 1, 5⟩, ⟨0, 1⟩⟩] [⟨⟨1987, 7, 1⟩, 30, 20⟩]
    ⟨⟨1999, 1, 5⟩, ⟨0, 1⟩⟩ ⟨⟨1987, 7, 1⟩, 30, 20⟩
    (by decide) (by decide) (by decide) (by decide) (by decide) (by decide)

/-- Claim C9: the value returned by `writeControlFile` is the `(dz, smi)` pair
computed for the last ensemble member of the loop (index `nens - 1`), not
an aggregate over the members: the loop overwrites the pair on every
iteration and the value from the final iteration is returned. -/
theorem C9_writeControlFile_returns_last (nens : Nat) (vsm : PyFloat ⊕ List PyFloat)
    (depths : List PyFloat) (profiles : List String) (vsml : List PyFloat)
    (interp : PyFloat → List PyFloat → List PyFloat → List (List PyFloat))
    (h0 : 0 < nens) (hexp : expandVsm vsm nens = some vsml) :
    writeControlFile nens vsm depths profiles interp =
      some (dzFromProfile (profiles.getD (nens - 1) ""),
        interp (vsml.getD (nens - 1) ⟨0, 1⟩) depths
          (dzFromProfile (profiles.getD (nens - 1) ""))) := by
  unfold writeControlFile
  rw [hexp]
  exact foldl_last _
    (fun ens => some (dzFromProfile (profiles.getD ens ""),
      interp (vsml.getD ens ⟨0, 1⟩) depths (dzFromProfile (profiles.getD ens ""))))
    (fun a i => rfl) none nens (by omega)

theorem C9_writeControlFile_returns_last_witness :
    writeControlFile 2 (Sum.inl ⟨1, 2⟩) [] ["p", "q"] (fun sm _ _ => [[sm]]) =
      some (dzFromProfile (["p", "q"].getD (2 - 1) ""),
        (fun (sm : PyFloat) (_ : List PyFloat) (_ : List PyFloat) => [[sm]])
          ([(⟨1, 2⟩ : PyFloat), ⟨1, 2⟩].getD (2 - 1) ⟨0, 1⟩) []
          (dzFromProfile (["p", "q"].getD (2 - 1) ""))) :=
  C9_writeControlFile_returns_last 2 (Sum.inl ⟨1, 2⟩) [] ["p", "q"] [⟨1, 2⟩, ⟨1, 2⟩]
    (fun sm _ _ => [[sm]]) (by decide) (by decide)

/-- Claim C7, counterexample: the assembled control file is NOT all
CRLF-terminated — the cultivar genetics payload written by
`_writeCultivar` carries no line terminator. -/
theorem C7_cex_cultivar_line_unterminated :
    (controlFileWrites 0 ⟨2009, 1, 6⟩ ⟨2009, 1, 6⟩ [] [] ["A", "B"] [] [[]]
        (cultivarLine demoRec) ⟨0, 1⟩ ⟨0, 1⟩).all endsCRLFb = false ∧
    endsCRLFb (cultivarLine demoRec) = false := by decide

/-- Claim C7 (amended): every string written to the control file by any section
writer is terminated by a carriage-return/line-feed pair EXCEPT the final
write, the cultivar genetics payload of `_writeCultivar`, which has no
terminator. -/
theorem C7_crlf_except_cultivar (ens : Nat) (sd pd : PyDate) (irr : List IrrigEntry)
    (fert : List FertEntry) (prof : List String) (dz : List PyFloat)
    (smi : List (List PyFloat)) (cult : String) (lat lon : PyFloat) :
    ((controlFileWrites ens sd pd irr fert prof dz smi cult lat lon).dropLast).all
      endsCRLFb = true := by
  have hsplit : controlFileWrites ens sd pd irr fert prof dz smi cult lat lon =
      (writeFileNames ens ++ writeSimulationControl sd ++ writeAutomaticMgmt sd ++
        writeExpDetails ++ writeTreatments ++ writeCultivarsSection ++ writeFields lat lon ++
        writeInitialConditions sd dz smi ++ writePlanting pd ++ writeIrrigation irr ++
        writeFertilizer fert ++ writeResidues ++ writeChemicals ++ writeTillage ++
        writeEnvironment ++ writeHarvest ++ writeSoil prof dz ++ ["*CULTIVAR\r\n"]) ++
        [cult] := by
    simp [controlFileWrites, writeCultivarSection, List.append_assoc]
  rw [hsplit, List.dropLast_concat, List.all_eq_true]
  intro s hs
  simp only [List.mem_append, List.mem_singleton, or_assoc] at hs
  rcases hs with h | h | h | h | h | h | h | h | h | h | h | h | h | h | h | h | h | h
  · exact allCRLF_writeFileNames ens s h
  · exact allCRLF_writeSimulationControl sd s h
  · exact allCRLF_writeAutomaticMgmt sd s h
  · exact allCRLF_writeExpDetails s h
  · exact allCRLF_writeTreatments s h
  · exact allCRLF_writeCultivarsSection s h
  · exact allCRLF_writeFields lat lon s h
  · exact allCRLF_writeInitialConditions sd dz smi s h
  · exact allCRLF_writePlanting pd s h
  · exact allCRLF_writeIrrigation irr s h
  · exact allCRLF_writeFertilizer fert s h
  · exact allCRLF_writeResidues s h
  · exact allCRLF_writeChemicals s h
  · exact allCRLF_writeTillage s h
  · exact allCRLF_writeEnvironment s h
  · exact allCRLF_writeHarvest s h
  · exact allCRLF_writeSoil prof dz s h
  · subst h
    decide
